import Mathlib

/-!
Verification of the digital-picture-frame display engine (src/display.py).

The Python class PictureFrameDisplay is embedded shallowly: its mutable
fields become a Lean structure, each method becomes a pure function from
the old state (plus the external inputs the method reads: wall-clock time,
file contents, image decode results) to the new state.  Machine paths and
decoded frames are abstracted as natural-number identifiers; wall-clock
times and config durations are rationals.
-/

namespace PictureFrame

/-! ## Data model -/

/-- One decoded image / file path, abstracted to an identifier. -/
abbrev Path := Nat

/-- A prepared frame, abstracted to an identifier. -/
abbrev Frame := Nat

/-- The display-section of the JSON configuration, as read by
`load_config` (src/display.py lines 104-113).  The two power-save
durations are read with `dict.get` defaults, hence `Option`. -/
structure DisplaySection where
  slideshow_interval : ℚ
  enable_power_save : Bool
  power_save_slideshow_duration : Option ℚ
  power_save_blank_duration : Option ℚ
deriving DecidableEq, Repr

/-- A parsed configuration document.  `display = none` models a JSON
document that parses but has no "display" key (accessing it raises,
caught by the surrounding handler). -/
structure RawConfig where
  display : Option DisplaySection
deriving DecidableEq, Repr

/-- Result of opening and JSON-parsing the configuration file:
the file may be unreadable, may fail to parse, or yields a document. -/
inductive FileRead where
  | unreadable
  | parseError
  | parsed (c : RawConfig)
deriving DecidableEq, Repr

/-- The configuration-related mutable fields of PictureFrameDisplay:
`self.config`, `self.config_mtime`, `self.interval`,
`self.slideshow_duration`, `self.blank_duration`. -/
structure ConfigState where
  config : RawConfig
  configMtime : ℚ
  interval : ℚ
  slideshowDuration : ℚ
  blankDuration : ℚ
deriving DecidableEq, Repr

/-- The slideshow / mode-machine mutable fields of PictureFrameDisplay:
`self.image_list`, `self.current_index`, `self.last_change`,
`self.current_image`, `self.blank_mode`, `self.mode_start_time`,
and the loop flag `running`. -/
structure EngineState where
  imageList : List Path
  currentIndex : Nat
  lastChange : ℚ
  currentImage : Option Frame
  blankMode : Bool
  modeStartTime : ℚ
  running : Bool
deriving DecidableEq, Repr

/-! ## load_config / check_config_changes (src/display.py lines 96-130)

`load_config` runs inside one `try`: if `open`/`json.load` raises, nothing
has been assigned yet and the handler leaves every field untouched; if the
document parses, `self.config` and `self.config_mtime` are assigned first,
and only then is `config['display']` accessed (a missing key raises after
those two assignments, leaving interval and durations untouched). -/

def load_config (s : ConfigState) (file : FileRead) (mtime : ℚ) : ConfigState :=
  match file with
  | .unreadable => s
  | .parseError => s
  | .parsed c =>
    let s1 : ConfigState :=
      { s with config := c, configMtime := mtime }
    match c.display with
    | none => s1
    | some d =>
      let s2 : ConfigState := { s1 with interval := d.slideshow_interval }
      if d.enable_power_save then
        { s2 with
            slideshowDuration := d.power_save_slideshow_duration.getD 60,
            blankDuration := d.power_save_blank_duration.getD 30 }
      else
        { s2 with slideshowDuration := 999999999, blankDuration := 30 }

/-- `check_config_changes`: `os.path.getmtime` may itself fail (caught,
returns False); otherwise a changed mtime triggers `load_config` and the
function returns True.  The Bool is the Python return value. -/
def check_config_changes (s : ConfigState) (mtimeRead : Option ℚ)
    (file : FileRead) : ConfigState × Bool :=
  match mtimeRead with
  | none => (s, false)
  | some m =>
    if m ≠ s.configMtime then (load_config s file m, true) else (s, false)

/-! ## Image preparation geometry (src/display.py lines 179-199)

`load_current_image` computes cover-fit scaling and a centered crop.
Python `int()` on the nonnegative float products and `//` on nonnegative
ints are both modelled by Nat floor division. -/

/-- Scaled size chosen by the cover-fit branch: the Python comparison
`img_ratio > screen_ratio`, i.e. `iw/ih > W/H`, is `W*ih < iw*H` over
naturals (positive denominators). -/
def scaled_size (iw ih W H : Nat) : Nat × Nat :=
  if W * ih < iw * H then (iw * H / ih, H) else (W, ih * W / iw)

/-- The center-crop box `(left, top, left+W, top+H)` with
`left = (new_width - W) // 2`, `top = (new_height - H) // 2`. -/
def crop_box (nw nh W H : Nat) : Nat × Nat × Nat × Nat :=
  ((nw - W) / 2, (nh - H) / 2, (nw - W) / 2 + W, (nh - H) / 2 + H)

/-- Dimensions of the raster PIL's `crop` returns for a box
`(l, t, r, b)`: exactly `(r - l, b - t)`. -/
def crop_dims (box : Nat × Nat × Nat × Nat) : Nat × Nat :=
  (box.2.2.1 - box.1, box.2.2.2 - box.2.1)

/-- Dimensions of the prepared frame produced by `load_current_image`
for a source image `iw × ih` and target resolution `W × H`. -/
def prepared_size (iw ih W H : Nat) : Nat × Nat :=
  crop_dims (crop_box (scaled_size iw ih W H).1 (scaled_size iw ih W H).2 W H)

/-- The two margins the center crop leaves on one axis, for a scaled
extent `n` and target extent `target`: the left/top margin
`(n - target) // 2` and the right/bottom margin `n - target - left`. -/
def crop_margins (n target : Nat) : Nat × Nat :=
  ((n - target) / 2, n - target - (n - target) / 2)

/-! ## Slideshow advance (src/display.py lines 159-210 and 523-531)

`load_current_image` is modelled down to its success/failure outcome:
`decode p` is the result of opening, transposing, converting, scaling,
cropping and dimming the file `p` (`none` when any step raises — the
`except` branch returns `None`).  `next_image` advances the index
modulo the catalog length, resets the image timer to `now`, and then
assigns `self.current_image = self.load_current_image()`. -/

def load_current_image (s : EngineState) (decode : Path → Option Frame) :
    Option Frame :=
  if s.imageList.isEmpty then none
  else
    match s.imageList.get? s.currentIndex with
    | none => none
    | some p => decode p

def next_image (s : EngineState) (now : ℚ) (decode : Path → Option Frame) :
    EngineState :=
  if s.imageList.isEmpty then s
  else
    let s1 : EngineState :=
      { s with
          currentIndex := (s.currentIndex + 1) % s.imageList.length,
          lastChange := now }
    { s1 with currentImage := load_current_image s1 decode }

/-! ## Keydown handling in the run loop (src/display.py lines 550-588)

The KEYDOWN branch first runs the wake-from-blank block (any key except
Escape while `blank_mode` is set: monitor on, `blank_mode = False`, both
timers reset to now), then dispatches on the key: Escape stops the loop,
Space advances the image, B is the manual blank toggle (tested against
the state *after* the wake block), R re-reads config.json (its parsed
interval and rescanned image list are inputs here) and reloads the
current image. -/

inductive Key where
  | escape
  | space
  | b
  | r
  | other
deriving DecidableEq, Repr

def handle_keydown (s : EngineState) (interval : ℚ) (now : ℚ)
    (decode : Path → Option Frame) (newInterval : ℚ) (newList : List Path)
    (k : Key) : EngineState × ℚ :=
  let s1 : EngineState :=
    if s.blankMode ∧ k ≠ Key.escape then
      { s with blankMode := false, modeStartTime := now, lastChange := now }
    else s
  match k with
  | .escape => ({ s1 with running := false }, interval)
  | .space => (next_image s1 now decode, interval)
  | .b =>
    if s1.blankMode then
      ({ s1 with blankMode := false, modeStartTime := now }, interval)
    else
      ({ s1 with blankMode := true, modeStartTime := now }, interval)
  | .r =>
    let s2 : EngineState := { s1 with imageList := newList }
    ({ s2 with currentImage := load_current_image s2 decode }, newInterval)
  | .other => (s1, interval)

/-! ## Mode scheduler tick (src/display.py lines 594-609)

Each loop tick computes `time_in_mode = time.time() - mode_start_time`
and transitions with a strict comparison against the active duration. -/

/-- The new `blank_mode` after one scheduler evaluation. -/
def mode_tick (blankMode : Bool) (timeInMode slideshowDuration blankDuration : ℚ) :
    Bool :=
  if blankMode then
    if timeInMode > blankDuration then false else blankMode
  else
    if timeInMode > slideshowDuration then true else blankMode

/-! ## Overlay compositing (src/display.py lines 313-390)

`render_overlays` gathers `clock_info` / `date_info` for the enabled
overlays and then draws: the darkened top bar, the clock text, and the
date text are all drawn inside `if clock_info:`; the weather and stats
overlays draw afterwards when enabled.  The embedding records the
sequence of draw calls issued on the frame; text metrics come from the
font and are inputs. -/

structure OverlayConfig where
  clockEnabled : Bool
  dateEnabled : Bool
  weatherEnabled : Bool
  statsEnabled : Bool
deriving DecidableEq, Repr

inductive DrawOp where
  | topBar (height : Nat)
  | clockText (x : Int) (text : List Char)
  | dateText (x : Int) (text : List Char)
  | weatherOverlay
  | statsOverlay
deriving DecidableEq, Repr

/-- Character substitution performed by Python `str.replace(':', ' ')`
(a one-character pattern replaces each occurrence independently). -/
def substColon (c : Char) : Char :=
  if c = ':' then ' ' else c

/-- The clock-text blink (lines 326-327 and 398-399): the formatted text
has its ':' characters replaced by spaces exactly on odd seconds. -/
def blink_text (text : List Char) (second : Nat) : List Char :=
  if second % 2 = 1 then text.map substColon else text

/-- The sequence of draw calls `render_overlays` issues.  `clockRaw` and
`dateRaw` are the strftime-formatted texts, `second` the current second;
`measure t` is the `(width, height)` the font reports for text `t`. -/
def render_overlays (cfg : OverlayConfig) (screenWidth : Nat)
    (clockRaw dateRaw : List Char) (second : Nat)
    (measure : List Char → Nat × Nat) : List DrawOp :=
  let clockInfo : Option (List Char × Int × Nat × Nat) :=
    if cfg.clockEnabled then
      let text := blink_text clockRaw second
      let w := (measure text).1
      let h := (measure text).2
      some (text, (screenWidth : Int) - (w : Int) - 20, w, h)
    else none
  let dateInfo : Option (List Char × Int × Nat × Nat) :=
    if cfg.dateEnabled then
      let w := (measure dateRaw).1
      let h := (measure dateRaw).2
      some (dateRaw, (20 : Int), w, h)
    else none
  let barOps : List DrawOp :=
    match clockInfo with
    | none => []
    | some (ctext, cx, _, ch) =>
      let barHeight := ch + 8 * 2
      [DrawOp.topBar barHeight, DrawOp.clockText cx ctext] ++
        (match dateInfo with
         | none => []
         | some (dtext, dx, _, _) => [DrawOp.dateText dx dtext])
  barOps ++
    (if cfg.weatherEnabled then [DrawOp.weatherOverlay] else []) ++
    (if cfg.statsEnabled then [DrawOp.statsOverlay] else [])

/-! ## Complementary contrast color (src/display.py lines 292-311)

`get_contrast_color` converts the sampled mean RGB to HLS, rotates the
hue half a turn (mod 1), boosts saturation capped at 1, and pushes
lightness away from the background.  Hue, saturation and lightness are
rationals; Python float `% 1.0` on a nonnegative value is the
fractional part. -/

/-- Fractional part, modelling Python `x % 1.0`. -/
def mod1 (x : ℚ) : ℚ := x - ⌊x⌋

/-- `comp_h = (h + 0.5) % 1.0`. -/
def rotate_hue (h : ℚ) : ℚ := mod1 (h + 1/2)

/-- `comp_s = min(1.0, s + 0.3)`. -/
def boost_sat (s : ℚ) : ℚ := min 1 (s + 3/10)

/-- `comp_l`: brighten dark backgrounds to at most 0.9, darken light
ones to at least 0.2. -/
def adjust_light (l : ℚ) : ℚ :=
  if l < 1/2 then min (9/10) (l + 1/2) else max (1/5) (l - 1/2)

/-! ## Theorems -/

/-- Claim C10: for every state whose image catalog is empty, advancing to
the next image is a complete no-op — the current index, the image-change
timer, and the current frame (indeed the whole engine state) are left
unchanged. -/
theorem next_image_empty_noop (s : EngineState) (now : ℚ)
    (decode : Path → Option Frame) (h : s.imageList = []) :
    next_image s now decode = s := by
  simp [next_image, h]

theorem next_image_empty_noop_witness :
    next_image ⟨[], 3, 7, some 9, false, 2, true⟩ 5 (fun p => some p) =
      ⟨[], 3, 7, some 9, false, 2, true⟩ :=
  next_image_empty_noop ⟨[], 3, 7, some 9, false, 2, true⟩ 5 (fun p => some p) rfl

/-- The concrete state used to refute claim C2: one catalog entry, a
previously displayed frame 7, and a decoder that fails on every path. -/
def c2_state : EngineState :=
  ⟨[5], 0, 0, some 7, false, 0, true⟩

/-- Claim C2 as stated is false: advancing to an undecodable image does
not leave the current frame equal to the previous frame — `next_image`
unconditionally assigns the (failed, `none`) load result. -/
theorem next_image_decode_failure_counterexample :
    (next_image c2_state 1 (fun _ => none)).currentImage = none ∧
      (next_image c2_state 1 (fun _ => none)).currentImage ≠
        c2_state.currentImage := by
  exact ⟨rfl, by decide⟩

/-- Claim C2 amended: when the image at the new index fails to decode,
`next_image` still advances the index and resets the timer but clears the
current frame to `none` (the render loop then skips presenting, so no
corrupt or partial frame is ever shown); the current frame is not kept
equal to the previous one. -/
theorem next_image_decode_failure_clears_frame (s : EngineState) (now : ℚ)
    (decode : Path → Option Frame) (hne : ¬ s.imageList.isEmpty)
    (hfail : ∀ p,
      s.imageList.get? ((s.currentIndex + 1) % s.imageList.length) = some p →
      decode p = none) :
    (next_image s now decode).currentImage = none ∧
    (next_image s now decode).currentIndex =
      (s.currentIndex + 1) % s.imageList.length ∧
    (next_image s now decode).lastChange = now := by
  have hif : s.imageList.isEmpty = false := by
    cases hb : s.imageList.isEmpty
    · rfl
    · exact absurd hb hne
  refine ⟨?_, ?_, ?_⟩ <;>
    simp only [next_image, load_current_image, hif, Bool.false_eq_true, if_false]
  cases hget : s.imageList.get? ((s.currentIndex + 1) % s.imageList.length) with
  | none => rfl
  | some p => exact hfail p hget

theorem next_image_decode_failure_clears_frame_witness :
    (next_image ⟨[4, 6], 1, 0, some 9, false, 0, true⟩ 2 (fun _ => none)).currentImage
        = none ∧
    (next_image ⟨[4, 6], 1, 0, some 9, false, 0, true⟩ 2 (fun _ => none)).currentIndex
        = (1 + 1) % 2 ∧
    (next_image ⟨[4, 6], 1, 0, some 9, false, 0, true⟩ 2 (fun _ => none)).lastChange
        = 2 :=
  next_image_decode_failure_clears_frame ⟨[4, 6], 1, 0, some 9, false, 0, true⟩ 2
    (fun _ => none) (by decide) (fun p _ => rfl)

/-- Claim C9: the center crop is symmetric — on either axis, for a scaled
extent at least the target, the two margins `(n - target) / 2` and
`n - target - (n - target) / 2` differ by at most one pixel, so each is
within one pixel of an equal split. -/
theorem crop_margins_symmetric (n target : Nat) (h : target ≤ n) :
    (crop_margins n target).1 ≤ (crop_margins n target).2 ∧
    (crop_margins n target).2 ≤ (crop_margins n target).1 + 1 := by
  simp only [crop_margins]
  omega

theorem crop_margins_symmetric_witness :
    (crop_margins 7 4).1 ≤ (crop_margins 7 4).2 ∧
    (crop_margins 7 4).2 ≤ (crop_margins 7 4).1 + 1 :=
  crop_margins_symmetric 7 4 (by decide)

/-- Claim C4 as stated is false: with power-save enabled and
`power_save_slideshow_duration = 60` no transition fires at exactly
t = 60 s (the comparison is strict), and with power-save disabled the
threshold is the finite 999999999 s, so a large enough elapsed time does
transition to Blank. -/
theorem mode_tick_c4_counterexample :
    mode_tick false 60 60 30 = false ∧
    mode_tick false 1000000000 999999999 30 = true := by
  constructor <;> decide

/-- Claim C4 amended: starting in Slideshow with power-save disabled the
threshold is 999999999 s, so no Blank transition occurs for any elapsed
time up to 999999999 s (not for arbitrarily large times); with power-save
enabled and duration 60 the transition fires exactly when the elapsed
time strictly exceeds 60 s — hence not at t = 60 s or before. -/
theorem mode_tick_slideshow_to_blank (t : ℚ) :
    (t ≤ 999999999 → mode_tick false t 999999999 30 = false) ∧
    (mode_tick false t 60 30 = true ↔ 60 < t) := by
  constructor
  · intro h
    simp [mode_tick, not_lt.mpr h]
  · simp only [mode_tick, Bool.false_eq_true, if_false]
    split_ifs with h
    · simp [h]
    · simp [h]

theorem mode_tick_slideshow_to_blank_witness :
    mode_tick false 100 999999999 30 = false ∧
    (mode_tick false 100 60 30 = true ↔ (60 : ℚ) < 100) :=
  ⟨(mode_tick_slideshow_to_blank 100).1 (by norm_num),
    (mode_tick_slideshow_to_blank 100).2⟩

/-- Claim C8: when the hot-reload check sees a changed modification time
but the configuration file is unreadable or fails to parse, the in-memory
configuration, the interval, and the power-save thresholds are all left
unchanged, and the watermark is not advanced — so the reload is retried
on the next tick (the mtime still differs); the failure is caught, never
terminating the loop. -/
theorem check_config_changes_failed_reload (s : ConfigState) (m : ℚ)
    (file : FileRead) (hm : m ≠ s.configMtime)
    (hfail : file = FileRead.unreadable ∨ file = FileRead.parseError) :
    (check_config_changes s (some m) file).1 = s ∧
    (check_config_changes s (some m) file).1.configMtime ≠ m := by
  have hload : load_config s file m = s := by
    rcases hfail with h | h <;> subst h <;> rfl
  constructor
  · simp [check_config_changes, hm, hload]
  · simp [check_config_changes, hm, hload]
    exact fun hc => hm hc.symm

theorem check_config_changes_failed_reload_witness :
    (check_config_changes ⟨⟨none⟩, 0, 5, 999999999, 30⟩ (some 1)
        FileRead.parseError).1 = ⟨⟨none⟩, 0, 5, 999999999, 30⟩ ∧
    (check_config_changes ⟨⟨none⟩, 0, 5, 999999999, 30⟩ (some 1)
        FileRead.parseError).1.configMtime ≠ 1 :=
  check_config_changes_failed_reload ⟨⟨none⟩, 0, 5, 999999999, 30⟩ 1
    FileRead.parseError (by norm_num) (Or.inr rfl)

/-- The concrete Blank-mode state used for claim C3: catalog [3], frame 3
displayed, blank_mode set. -/
def c3_blank_state : EngineState :=
  ⟨[3], 0, 0, some 3, true, 0, true⟩

/-- Claim C3 fails on the manual blank-toggle key B: pressed while in
Blank, the wake block first clears blank_mode, then the toggle branch
sees blank_mode already false and re-blanks — the state after the event
is Blank, not Slideshow (the toggle's own wake branch is unreachable on
a key press in Blank).  Every other non-exit key does end in Slideshow. -/
theorem handle_keydown_b_in_blank_stays_blank :
    ((handle_keydown c3_blank_state 10 5 (fun _ => some 3) 10 [3]
        Key.b).1).blankMode = true ∧
    ((handle_keydown c3_blank_state 10 5 (fun _ => some 3) 10 [3]
        Key.space).1).blankMode = false ∧
    ((handle_keydown c3_blank_state 10 5 (fun _ => some 3) 10 [3]
        Key.r).1).blankMode = false ∧
    ((handle_keydown c3_blank_state 10 5 (fun _ => some 3) 10 [3]
        Key.other).1).blankMode = false := by
  refine ⟨?_, ?_, ?_, ?_⟩ <;> rfl

/-- Claim C1 failing input: `clock.enabled = false`, `date.enabled = true`
(weather and stats disabled).  `render_overlays` then issues no draw call
at all — neither a bar nor the date text — because the darkened bar and
both text draws live inside the clock-enabled branch; the output frame is
identical to the input, with no date bar/text drawn. -/
theorem render_overlays_clock_off_date_on (w : Nat)
    (clockRaw dateRaw : List Char) (second : Nat)
    (measure : List Char → Nat × Nat) :
    render_overlays ⟨false, true, false, false⟩ w clockRaw dateRaw second
      measure = [] := by
  rfl

/-- Claim C6: for every clock format and time, the rendered clock text
has each ':' replaced by a space exactly when the current second is odd:
the length is preserved, the string is left unchanged on even seconds,
and character `i` of the result is a space where the source had ':' and
the second is odd, and the source character otherwise. -/
theorem blink_text_spec (text : List Char) (second : Nat) (i : Nat)
    (h : i < text.length) :
    (blink_text text second).length = text.length ∧
    (second % 2 = 0 → blink_text text second = text) ∧
    (blink_text text second).getD i '?' =
      (if second % 2 = 1 ∧ text.getD i '?' = ':' then ' '
       else text.getD i '?') := by
  rcases Nat.mod_two_eq_zero_or_one second with hs | hs
  · have hs1 : ¬ second % 2 = 1 := by omega
    simp [blink_text, hs, hs1]
  · have hs0 : ¬ second % 2 = 0 := by omega
    refine ⟨?_, fun hc => absurd hc hs0, ?_⟩
    · simp [blink_text, hs]
    · simp only [blink_text, hs, if_pos, hs0]
      rw [List.getD_eq_getElem?_getD, List.getD_eq_getElem?_getD,
        List.getElem?_map, List.getElem?_eq_getElem h]
      simp [substColon]

theorem blink_text_spec_witness :
    (blink_text ['1', ':', '2'] 1).length = (['1', ':', '2'] : List Char).length ∧
    (1 % 2 = 0 → blink_text ['1', ':', '2'] 1 = ['1', ':', '2']) ∧
    (blink_text ['1', ':', '2'] 1).getD 1 '?' =
      (if 1 % 2 = 1 ∧ (['1', ':', '2'] : List Char).getD 1 '?' = ':' then ' '
       else (['1', ':', '2'] : List Char).getD 1 '?') :=
  blink_text_spec ['1', ':', '2'] 1 1 (by decide)

/-- Shifting the argument of `mod1` by an integer floor leaves it
unchanged: `mod1 (mod1 x + c) = mod1 (x + c)`. -/
theorem mod1_mod1_add (x c : ℚ) : mod1 (mod1 x + c) = mod1 (x + c) := by
  unfold mod1
  have hx : x - ⌊x⌋ + c = (x + c) - (⌊x⌋ : ℤ) := by ring
  rw [hx, Int.floor_sub_int]
  push_cast
  ring

/-- `mod1` is invariant under adding one. -/
theorem mod1_add_one (x : ℚ) : mod1 (x + 1) = mod1 x := by
  unfold mod1
  have hx : x + 1 = x + (1 : ℤ) := by norm_num
  rw [hx, Int.floor_add_int]
  push_cast
  ring

/-- `mod1` fixes values already in `[0, 1)`. -/
theorem mod1_eq_self (x : ℚ) (h0 : 0 ≤ x) (h1 : x < 1) : mod1 x = x := by
  unfold mod1
  rw [Int.floor_eq_zero_iff.mpr ⟨h0, h1⟩]
  simp

/-- Claim C7: for every sampled average color in HLS form — hue in
`[0, 1)` as colorsys produces, lightness in `[0, 1]` — the complementary
color computation satisfies: rotating the hue by 0.5 twice returns the
original hue (mod 1); the boosted saturation `min(1, s + 0.3)` never
exceeds 1; and the adjusted lightness always lies in `[0.2, 0.9]`. -/
theorem contrast_color_properties (h s l : ℚ)
    (hh0 : 0 ≤ h) (hh1 : h < 1) (hl0 : 0 ≤ l) (hl1 : l ≤ 1) :
    rotate_hue (rotate_hue h) = h ∧
    boost_sat s ≤ 1 ∧
    1/5 ≤ adjust_light l ∧ adjust_light l ≤ 9/10 := by
  refine ⟨?_, min_le_left 1 (s + 3/10), ?_, ?_⟩
  · unfold rotate_hue
    rw [mod1_mod1_add, show h + 1/2 + 1/2 = h + 1 by ring, mod1_add_one,
      mod1_eq_self h hh0 hh1]
  · unfold adjust_light
    split_ifs with hc
    · refine le_min (by norm_num) (by linarith)
    · exact le_max_left (1/5) (l - 1/2)
  · unfold adjust_light
    split_ifs with hc
    · exact min_le_left (9/10) (l + 1/2)
    · exact max_le (by norm_num) (by linarith)

theorem contrast_color_properties_witness :
    rotate_hue (rotate_hue (3/4)) = 3/4 ∧
    boost_sat (9/10) ≤ 1 ∧
    1/5 ≤ adjust_light (1/3) ∧ adjust_light (1/3) ≤ 9/10 :=
  contrast_color_properties (3/4) (9/10) (1/3) (by norm_num) (by norm_num)
    (by norm_num) (by norm_num)

/-- Claim C5: for every source image size and target resolution (all
positive), the prepared frame has dimensions exactly `W × H`; moreover
the center-crop box lies entirely inside the scaled image, so the frame
is genuine image data with no out-of-bounds padding. -/
theorem prepared_size_exact (iw ih W H : Nat)
    (hiw : 0 < iw) (hih : 0 < ih) (hW : 0 < W) (hH : 0 < H) :
    prepared_size iw ih W H = (W, H) ∧
    (crop_box (scaled_size iw ih W H).1 (scaled_size iw ih W H).2 W H).2.2.1 ≤
      (scaled_size iw ih W H).1 ∧
    (crop_box (scaled_size iw ih W H).1 (scaled_size iw ih W H).2 W H).2.2.2 ≤
      (scaled_size iw ih W H).2 := by
  have hcover : W ≤ (scaled_size iw ih W H).1 ∧ H ≤ (scaled_size iw ih W H).2 := by
    unfold scaled_size
    split_ifs with hratio
    · refine ⟨?_, le_refl H⟩
      simpa [Nat.le_div_iff_mul_le hih] using Nat.le_of_lt hratio
    · refine ⟨le_refl W, ?_⟩
      rw [Nat.le_div_iff_mul_le hiw]
      have hle : iw * H ≤ W * ih := Nat.le_of_not_lt hratio
      calc H * iw = iw * H := Nat.mul_comm H iw
        _ ≤ W * ih := hle
        _ = ih * W := Nat.mul_comm W ih
  obtain ⟨hw, hh⟩ := hcover
  refine ⟨?_, ?_, ?_⟩
  · unfold prepared_size crop_dims crop_box
    simp only [Prod.mk.injEq]
    constructor <;> omega
  · unfold crop_box
    simp only
    omega
  · unfold crop_box
    simp only
    omega

theorem prepared_size_exact_witness :
    prepared_size 4 3 2 1 = (2, 1) ∧
    (crop_box (scaled_size 4 3 2 1).1 (scaled_size 4 3 2 1).2 2 1).2.2.1 ≤
      (scaled_size 4 3 2 1).1 ∧
    (crop_box (scaled_size 4 3 2 1).1 (scaled_size 4 3 2 1).2 2 1).2.2.2 ≤
      (scaled_size 4 3 2 1).2 :=
  prepared_size_exact 4 3 2 1 (by decide) (by decide) (by decide) (by decide)

end PictureFrame
